import Mathlib

/-!
Verification of the async job poll adapter operators of this repository.

The main embedded function is `lambda_handler` from
`source/operators/rekognition/check_content_moderation_status.py`; the
secondary one is `generic_data_lookup_handler` from
`source/operators/rekognition/generic_data_lookup.py`.

Modelling conventions. The remote service (`rek.get_content_moderation`) is
scripted by a list of responses consumed one per call; the metadata store
(`DataPlane.store_asset_metadata`, a helper library collaborator whose
interface is described by the spec as taking assetId, operatorName,
workflowId, payload, a paginate flag and an end flag, and returning a mapping
with an optional "Status" discriminator) is scripted by a total function
`Nat → StoreResult` consumed in write order, so the i-th write performed by an
invocation observes `store i`. The call made without explicit flags
(`store_asset_metadata(asset_id, operator_name, workflow_id, results)`) is
recorded with both flags false, the helper's defaults. A normal Python
`return` becomes `Outcome.ret`, a raised `MasExecutionError` becomes
`Outcome.err`, any other uncaught Python exception becomes `Outcome.uncaught`,
and running off the end of the scripted response list (which has no
counterpart in the real service, which always answers) becomes
`Outcome.exhausted`.
-/

/-- One response of `rek.get_content_moderation`: the `JobStatus` string, the
optional `NextToken` continuation, and the optional `StatusMessage`. -/
structure RekResponse where
  jobStatus : String
  nextToken : Option String
  statusMessage : Option String
deriving Repr, DecidableEq

/-- A response page that keeps the pagination loop going: `JobStatus`
"SUCCEEDED" together with a `NextToken`. -/
def RekResponse.succeededWithToken (r : RekResponse) : Bool :=
  r.jobStatus == "SUCCEEDED" && r.nextToken.isSome

/-- The mapping returned by `DataPlane.store_asset_metadata`: `status = none`
models a mapping with no "Status" field. -/
structure StoreResult where
  status : Option String
deriving Repr, DecidableEq

/-- `StoreResult.isSuccess` holds when the mapping has "Status" = "Success". -/
def StoreResult.isSuccess (r : StoreResult) : Bool :=
  r.status == some "Success"

/-- One call to `DataPlane.store_asset_metadata` as the operator makes it. -/
structure WriteCall where
  assetId : String
  operatorName : String
  workflowId : String
  results : RekResponse
  paginate : Bool
  endFlag : Bool
deriving Repr, DecidableEq

/-- A write is marked final when it is not an intermediate page write: either
the end flag is set (paginated final page) or the write is the plain
unpaginated call with both flags at their defaults. -/
def WriteCall.markedFinal (w : WriteCall) : Bool :=
  !(w.paginate && !w.endFlag)

/-- The operator's output object (`OutputHelper`): a workflow status string
plus workflow metadata accumulated by `add_workflow_metadata` (appended
key/value pairs, later pairs overriding earlier ones on lookup). -/
structure OutputObject where
  status : String
  metadata : List (String × String)
deriving Repr, DecidableEq

/-- How an invocation ends: a normal return, a raised `MasExecutionError`
(both carrying the output object), an uncaught Python exception, or
exhaustion of the scripted remote responses (a model artifact only). -/
inductive Outcome where
  | ret (out : OutputObject)
  | err (out : OutputObject)
  | uncaught
  | exhausted
deriving Repr, DecidableEq

/-- `o.isReturnWithStatus s` holds when the invocation returned normally with
workflow status `s`. -/
def Outcome.isReturnWithStatus : Outcome → String → Bool
  | Outcome.ret o, s => o.status == s
  | _, _ => false

/-- `o.isErrorWithStatus s` holds when the invocation raised
`MasExecutionError` with workflow status `s`. -/
def Outcome.isErrorWithStatus : Outcome → String → Bool
  | Outcome.err o, s => o.status == s
  | _, _ => false

/-- The observable behaviour of one invocation of the poll adapter: its
outcome, how many remote job-status queries it made, and the metadata-store
writes it performed, in order. -/
structure Trace where
  outcome : Outcome
  remoteCalls : Nat
  writes : List WriteCall
deriving Repr, DecidableEq

/-- The `MetaData` sub-object of the input event; each field is a key that
may be missing. -/
structure EventMetaData where
  assetId : Option String
  contentModerationJobId : Option String
  workflowExecutionId : Option String
deriving Repr, DecidableEq

/-- The input event of `check_content_moderation_status.lambda_handler`:
the top-level "Status" key and the "MetaData" sub-object, each possibly
missing. -/
structure Event where
  status : Option String
  metaData : Option EventMetaData
deriving Repr, DecidableEq

/-- The `while not finished` pagination loop of
`check_content_moderation_status.lambda_handler` (source lines 53-124),
recursing on the scripted remote responses. One response is consumed per
iteration; `isPaginated` mirrors the Python `is_paginated` flag. The store
function is shifted by one on each write so that the i-th write of the whole
run observes `store i`. Error-message strings follow the source with Python's
`format` interpolation spelled out (the raw repr of the upload mapping that
the source interpolates into one message is elided). -/
def pollLoop (operatorName jobId assetId workflowId : String)
    (isPaginated : Bool) (out : OutputObject) (store : Nat → StoreResult) :
    List RekResponse → Trace
  | [] => { outcome := Outcome.exhausted, remoteCalls := 0, writes := [] }
  | r :: rest =>
    if r.jobStatus = "IN_PROGRESS" then
      { outcome :=
          Outcome.ret
            { status := "Executing",
              metadata :=
                out.metadata ++
                  [("ContentModerationJobId", jobId), ("AssetId", assetId),
                   ("WorkflowExecutionId", workflowId)] },
        remoteCalls := 1,
        writes := [] }
    else if r.jobStatus = "FAILED" then
      match r.statusMessage with
      | none => { outcome := Outcome.uncaught, remoteCalls := 1, writes := [] }
      | some msg =>
        { outcome :=
            Outcome.err
              { status := "Error",
                metadata :=
                  out.metadata ++
                    [("ContentModerationJobId", jobId),
                     ("ContentModerationError", msg)] },
          remoteCalls := 1,
          writes := [] }
    else if r.jobStatus = "SUCCEEDED" then
      match r.nextToken with
      | some _ =>
        let w : WriteCall :=
          { assetId := assetId, operatorName := operatorName,
            workflowId := workflowId, results := r,
            paginate := true, endFlag := false }
        match (store 0).status with
        | none =>
          { outcome :=
              Outcome.err
                { status := "Error",
                  metadata :=
                    out.metadata ++
                      [("ContentModerationError",
                        "Unable to upload metadata for asset: " ++ assetId),
                       ("ContentModerationJobId", jobId)] },
            remoteCalls := 1,
            writes := [w] }
        | some s =>
          if s = "Success" then
            let t := pollLoop operatorName jobId assetId workflowId true out
              (fun n => store (n + 1)) rest
            { outcome := t.outcome, remoteCalls := t.remoteCalls + 1,
              writes := w :: t.writes }
          else if s = "Failed" then
            { outcome :=
                Outcome.err
                  { status := "Error",
                    metadata :=
                      out.metadata ++
                        [("ContentModerationError",
                          "Unable to upload metadata for asset: " ++ assetId),
                         ("ContentModerationJobId", jobId)] },
              remoteCalls := 1,
              writes := [w] }
          else
            { outcome :=
                Outcome.err
                  { status := "Error",
                    metadata :=
                      out.metadata ++
                        [("ContentModerationError",
                          "Unable to upload metadata for asset: " ++ assetId),
                         ("ContentModerationJobId", jobId)] },
              remoteCalls := 1,
              writes := [w] }
      | none =>
        let w : WriteCall :=
          if isPaginated then
            { assetId := assetId, operatorName := operatorName,
              workflowId := workflowId, results := r,
              paginate := true, endFlag := true }
          else
            { assetId := assetId, operatorName := operatorName,
              workflowId := workflowId, results := r,
              paginate := false, endFlag := false }
        match (store 0).status with
        | none =>
          { outcome :=
              Outcome.err
                { status := "Error",
                  metadata :=
                    out.metadata ++
                      [("ContentModerationError",
                        "Unable to upload metadata for " ++ assetId)] },
            remoteCalls := 1,
            writes := [w] }
        | some s =>
          if s = "Success" then
            { outcome :=
                Outcome.ret
                  { status := "Complete",
                    metadata :=
                      out.metadata ++ [("LabelDetectionJobId", jobId)] },
              remoteCalls := 1,
              writes := [w] }
          else if s = "Failed" then
            { outcome :=
                Outcome.err
                  { status := "Error",
                    metadata :=
                      out.metadata ++
                        [("ContentModerationError",
                          "Unable to upload metadata for asset: " ++ assetId)] },
              remoteCalls := 1,
              writes := [w] }
          else
            { outcome :=
                Outcome.err
                  { status := "Error",
                    metadata :=
                      out.metadata ++
                        [("ContentModerationError",
                          "Unable to upload metadata for asset: " ++ assetId),
                         ("PersonTrackingJobId", jobId)] },
              remoteCalls := 1,
              writes := [w] }
    else
      { outcome :=
          Outcome.err
            { status := "Error",
              metadata :=
                out.metadata ++
                  [("ContentModerationError", "Unable to determine status")] },
        remoteCalls := 1,
        writes := [] }

/-- `check_content_moderation_status.lambda_handler` (source lines 27-124).
Key accesses are in source order: "Status", then "MetaData"."AssetId"
(missing keys raise the "Missing key" error), then the early return on
status "Complete", then "ContentModerationJobId" and "WorkflowExecutionId"
(missing keys raise the "Missing a required metadata key" error), then the
pagination loop. Python formats a missing key `e` with quotes around the key
name; the quotes are elided here. -/
def lambda_handler (operatorName : String) (event : Event)
    (responses : List RekResponse) (store : Nat → StoreResult) : Trace :=
  match event.status with
  | none =>
    { outcome :=
        Outcome.err
          { status := "Error",
            metadata := [("ContentModerationError", "Missing key Status")] },
      remoteCalls := 0,
      writes := [] }
  | some status =>
    match event.metaData with
    | none =>
      { outcome :=
          Outcome.err
            { status := "Error",
              metadata :=
                [("ContentModerationError", "Missing key MetaData")] },
        remoteCalls := 0,
        writes := [] }
    | some md =>
      match md.assetId with
      | none =>
        { outcome :=
            Outcome.err
              { status := "Error",
                metadata :=
                  [("ContentModerationError", "Missing key AssetId")] },
          remoteCalls := 0,
          writes := [] }
      | some assetId =>
        if status = "Complete" then
          { outcome := Outcome.ret { status := "Complete", metadata := [] },
            remoteCalls := 0, writes := [] }
        else
          match md.contentModerationJobId with
          | none =>
            { outcome :=
                Outcome.err
                  { status := "Error",
                    metadata :=
                      [("ContentModerationError",
                        "Missing a required metadata key ContentModerationJobId")] },
              remoteCalls := 0,
              writes := [] }
          | some jobId =>
            match md.workflowExecutionId with
            | none =>
              { outcome :=
                  Outcome.err
                    { status := "Error",
                      metadata :=
                        [("ContentModerationError",
                          "Missing a required metadata key WorkflowExecutionId")] },
                remoteCalls := 0,
                writes := [] }
            | some workflowId =>
              pollLoop operatorName jobId assetId workflowId false
                { status := "", metadata := [] } store responses

/-- An input event is missing a required key when the top-level "Status", or
any of the "MetaData" keys "AssetId", "ContentModerationJobId",
"WorkflowExecutionId", is absent. -/
def missingRequiredKey (e : Event) : Bool :=
  e.status.isNone ||
    (match e.metaData with
     | none => true
     | some md =>
       md.assetId.isNone || md.contentModerationJobId.isNone ||
         md.workflowExecutionId.isNone)

/-! The `generic_data_lookup.py` operator. -/

/-- A JSON value, the possible results of `json.loads` on the fetched
datafile. -/
inductive Json where
  | obj : List (String × Json) → Json
  | arr : List Json → Json
  | str : String → Json
  | num : Int → Json
  | bool : Bool → Json
  | null : Json

/-- `Json.isDict` mirrors Python's `type(metadata_json) == dict`. -/
def Json.isDict : Json → Bool
  | Json.obj _ => true
  | _ => false

/-- One media location: the "S3Bucket" and "S3Key" fields. -/
structure MediaSource where
  s3Bucket : String
  s3Key : String
deriving Repr, DecidableEq

/-- The "Media" sub-object of the operator input: each of the four media
kinds may be present. -/
structure MediaMap where
  video : Option MediaSource
  audio : Option MediaSource
  image : Option MediaSource
  text : Option MediaSource
deriving Repr, DecidableEq

/-- The parts of the input event that `generic_data_lookup.lambda_handler`
reads: "WorkflowExecutionId", "AssetId", the "Media" sub-object of the
operator input, and the optional "Filename" configuration parameter. -/
structure LookupEvent where
  workflowExecutionId : Option String
  assetId : Option String
  media : Option MediaMap
  filenameConfig : Option String
deriving Repr, DecidableEq

/-- The Video / Audio / Image / Text elif chain of
`generic_data_lookup.lambda_handler` (source lines 47-62): the first media
kind present, in that order, supplies the bucket and key. -/
def selectMedia (mm : MediaMap) : Option MediaSource :=
  match mm.video with
  | some m => some m
  | none =>
    match mm.audio with
    | some m => some m
    | none =>
      match mm.image with
      | some m => some m
      | none => mm.text

/-- The metadata filename computation (source lines 71-75): the configured
"Filename" when present, otherwise the media key's basename with its
extension replaced by ".json". -/
def metadataFilename (e : LookupEvent) (key : String) : String :=
  match e.filenameConfig with
  | some f => f
  | none =>
    let mediaFilename := (key.splitOn "/").getLastD ""
    String.intercalate "." (mediaFilename.splitOn ".").dropLast ++ ".json"

/-- One call to `DataPlane.store_asset_metadata` as the lookup operator makes
it (no pagination flags). -/
structure GDWrite where
  assetId : String
  operatorName : String
  workflowId : String
  payload : Json

/-- The observable behaviour of one invocation of the lookup operator. -/
structure GDTrace where
  outcome : Outcome
  writes : List GDWrite

/-- `generic_data_lookup.lambda_handler` (source lines 41-116). The object
store is scripted by `fetch`, taking the bucket and the key requested and
returning either the decoded JSON document or the text of the raised
exception. A missing "WorkflowExecutionId", "AssetId" or "Media" key raises
the "No valid inputs" error from inside the try block; a "Media" object with
none of the four media kinds leaves `bucket` unbound and the print statement
after the try block raises an uncaught NameError. -/
def generic_data_lookup_handler (opName : String) (event : LookupEvent)
    (fetch : String → String → Except String Json)
    (store : Nat → StoreResult) : GDTrace :=
  match event.workflowExecutionId, event.assetId, event.media with
  | some workflowId, some assetId, some mm =>
    match selectMedia mm with
    | none => { outcome := Outcome.uncaught, writes := [] }
    | some media =>
      match fetch media.s3Bucket (metadataFilename event media.s3Key) with
      | Except.error e =>
        { outcome :=
            Outcome.err
              { status := "Error",
                metadata :=
                  [("GenericDataLookupError",
                    "Unable read datafile. " ++ e)] },
          writes := [] }
      | Except.ok metadataJson =>
        if metadataJson.isDict then
          let md0 : List (String × String) :=
            [("AssetId", assetId), ("WorkflowExecutionId", workflowId)]
          let w : GDWrite :=
            { assetId := assetId, operatorName := opName,
              workflowId := workflowId, payload := metadataJson }
          match (store 0).status with
          | none =>
            { outcome :=
                Outcome.err
                  { status := "Error",
                    metadata :=
                      md0 ++
                        [("GenericDataLookupError",
                          "Unable to upload metadata for asset: " ++ assetId)] },
              writes := [w] }
          | some s =>
            if s = "Success" then
              { outcome :=
                  Outcome.ret { status := "Complete", metadata := md0 },
                writes := [w] }
            else
              { outcome :=
                  Outcome.err
                    { status := "Error",
                      metadata :=
                        md0 ++
                          [("GenericDataLookupError",
                            "Unable to upload metadata for asset: " ++ assetId)] },
                writes := [w] }
        else
          { outcome :=
              Outcome.err
                { status := "Error",
                  metadata :=
                    [("GenericDataLookupError",
                      "Metadata must be of type dict.")] },
            writes := [] }
  | _, _, _ =>
    { outcome :=
        Outcome.err
          { status := "Error",
            metadata := [("GenericDataLookupError", "No valid inputs")] },
      writes := [] }

/-! Concrete fixtures used to instantiate theorems with hypotheses. -/

/-- A store script whose every write reports "Status" = "Success". -/
def storeAllSuccess : Nat → StoreResult := fun _ => { status := some "Success" }

/-- A store script whose every write returns a mapping with no "Status"
field. -/
def storeNoStatus : Nat → StoreResult := fun _ => { status := none }

/-- A fully populated input event for the poll adapter. -/
def sampleEvent : Event :=
  { status := some "Queued",
    metaData :=
      some { assetId := some "asset1", contentModerationJobId := some "job1",
             workflowExecutionId := some "wf1" } }

/-- A SUCCEEDED response with no continuation token (a final page). -/
def finalPage : RekResponse :=
  { jobStatus := "SUCCEEDED", nextToken := none, statusMessage := none }

/-- A SUCCEEDED response carrying a continuation token (a non-final page). -/
def tokenPage : RekResponse :=
  { jobStatus := "SUCCEEDED", nextToken := some "tok", statusMessage := none }

/-- An IN_PROGRESS response. -/
def inProgressPage : RekResponse :=
  { jobStatus := "IN_PROGRESS", nextToken := none, statusMessage := none }

/-! Theorems. -/

/-- On a well-formed event whose status is not "Complete", the handler runs
the pagination loop with a fresh output object. -/
theorem lambda_handler_wf (op s a j w : String) (hs : s ≠ "Complete")
    (responses : List RekResponse) (store : Nat → StoreResult) :
    lambda_handler op
        { status := some s,
          metaData :=
            some { assetId := some a, contentModerationJobId := some j,
                   workflowExecutionId := some w } } responses store =
      pollLoop op j a w false { status := "", metadata := [] } store
        responses := by
  simp [lambda_handler, hs]

/-- Claim C2 counterexample: an input whose embedded Status is "Complete" but
whose MetaData key is missing does not return with status "Complete"; the
adapter raises the missing-key error instead, because "MetaData"."AssetId" is
read before the early return. -/
theorem claim2_counterexample :
    (lambda_handler "op" { status := some "Complete", metaData := none } []
        storeAllSuccess).outcome.isReturnWithStatus "Complete" = false ∧
    (lambda_handler "op" { status := some "Complete", metaData := none } []
        storeAllSuccess).outcome.isErrorWithStatus "Error" = true := by
  decide

/-- Claim C2 (amended): for every input event whose Status is "Complete" and
which also carries the MetaData AssetId key (read before the short-circuit),
the adapter returns immediately with status "Complete", making no remote
query and no metadata-store write. -/
theorem claim2_early_return (op a s : String) (md : EventMetaData)
    (responses : List RekResponse) (store : Nat → StoreResult)
    (hst : s = "Complete") (hmd : md.assetId = some a) :
    lambda_handler op { status := some s, metaData := some md } responses
        store =
      { outcome := Outcome.ret { status := "Complete", metadata := [] },
        remoteCalls := 0, writes := [] } := by
  subst hst
  simp [lambda_handler, hmd]

/-- Claim C2 witness: a concrete already-Complete event with AssetId present
returns Complete with zero remote calls and zero writes. -/
theorem claim2_witness :
    lambda_handler "op"
        { status := some "Complete",
          metaData :=
            some { assetId := some "asset1",
                   contentModerationJobId := some "job1",
                   workflowExecutionId := some "wf1" } } [] storeAllSuccess =
      { outcome := Outcome.ret { status := "Complete", metadata := [] },
        remoteCalls := 0, writes := [] } :=
  claim2_early_return "op" "asset1" "Complete"
    { assetId := some "asset1", contentModerationJobId := some "job1",
      workflowExecutionId := some "wf1" } [] storeAllSuccess rfl rfl

/-- Claim C4: whenever the remote service reports job status "IN_PROGRESS",
the adapter returns with status "Executing" and performs no metadata-store
write in that invocation. -/
theorem claim4_in_progress (op s a j w : String) (r : RekResponse)
    (rest : List RekResponse) (store : Nat → StoreResult)
    (hs : s ≠ "Complete") (hr : r.jobStatus = "IN_PROGRESS") :
    (lambda_handler op
        { status := some s,
          metaData :=
            some { assetId := some a, contentModerationJobId := some j,
                   workflowExecutionId := some w } } (r :: rest)
        store).outcome.isReturnWithStatus "Executing" = true ∧
    (lambda_handler op
        { status := some s,
          metaData :=
            some { assetId := some a, contentModerationJobId := some j,
                   workflowExecutionId := some w } } (r :: rest)
        store).writes = [] := by
  rw [lambda_handler_wf op s a j w hs]
  simp [pollLoop, hr, Outcome.isReturnWithStatus]

/-- Claim C4 witness: a concrete IN_PROGRESS response yields an "Executing"
return and no writes. -/
theorem claim4_witness :
    (lambda_handler "op" sampleEvent [inProgressPage]
        storeAllSuccess).outcome.isReturnWithStatus "Executing" = true ∧
    (lambda_handler "op" sampleEvent [inProgressPage]
        storeAllSuccess).writes = [] :=
  claim4_in_progress "op" "Queued" "asset1" "job1" "wf1" inProgressPage []
    storeAllSuccess (by decide) rfl

/-- Claim C5: whenever the remote service reports job status "FAILED" (with a
StatusMessage present), the adapter performs no metadata-store write and
raises a failure object with status "Error" whose metadata embeds the
response's StatusMessage. -/
theorem claim5_failed (op s a j w m : String) (r : RekResponse)
    (rest : List RekResponse) (store : Nat → StoreResult)
    (hs : s ≠ "Complete") (hr : r.jobStatus = "FAILED")
    (hm : r.statusMessage = some m) :
    (lambda_handler op
        { status := some s,
          metaData :=
            some { assetId := some a, contentModerationJobId := some j,
                   workflowExecutionId := some w } } (r :: rest)
        store).writes = [] ∧
    ∃ o,
      (lambda_handler op
          { status := some s,
            metaData :=
              some { assetId := some a, contentModerationJobId := some j,
                     workflowExecutionId := some w } } (r :: rest)
          store).outcome = Outcome.err o ∧
        o.status = "Error" ∧ ("ContentModerationError", m) ∈ o.metadata := by
  rw [lambda_handler_wf op s a j w hs]
  have hout :
      (pollLoop op j a w false { status := "", metadata := [] } store
          (r :: rest)).outcome =
        Outcome.err
          { status := "Error",
            metadata :=
              [("ContentModerationJobId", j),
               ("ContentModerationError", m)] } := by
    simp [pollLoop, hr, hm]
  exact ⟨by simp [pollLoop, hr, hm], _, hout, rfl, by simp⟩

/-- Claim C5 witness: a concrete FAILED response with StatusMessage "boom"
performs no write and raises Error metadata containing "boom". -/
theorem claim5_witness :
    (lambda_handler "op" sampleEvent
        [{ jobStatus := "FAILED", nextToken := none,
           statusMessage := some "boom" }] storeAllSuccess).writes = [] ∧
    ∃ o,
      (lambda_handler "op" sampleEvent
          [{ jobStatus := "FAILED", nextToken := none,
             statusMessage := some "boom" }] storeAllSuccess).outcome =
          Outcome.err o ∧
        o.status = "Error" ∧
        ("ContentModerationError", "boom") ∈ o.metadata :=
  claim5_failed "op" "Queued" "asset1" "job1" "wf1" "boom"
    { jobStatus := "FAILED", nextToken := none, statusMessage := some "boom" }
    [] storeAllSuccess (by decide) rfl rfl

/-- Claim C7: whenever the remote service reports a job status string other
than "IN_PROGRESS", "FAILED" or "SUCCEEDED", the adapter raises a failure
object with status "Error" carrying the generic "Unable to determine status"
message and performs no metadata-store write for that response. -/
theorem claim7_unrecognized (op s a j w : String) (r : RekResponse)
    (rest : List RekResponse) (store : Nat → StoreResult)
    (hs : s ≠ "Complete") (h1 : r.jobStatus ≠ "IN_PROGRESS")
    (h2 : r.jobStatus ≠ "FAILED") (h3 : r.jobStatus ≠ "SUCCEEDED") :
    (lambda_handler op
        { status := some s,
          metaData :=
            some { assetId := some a, contentModerationJobId := some j,
                   workflowExecutionId := some w } } (r :: rest)
        store).writes = [] ∧
    ∃ o,
      (lambda_handler op
          { status := some s,
            metaData :=
              some { assetId := some a, contentModerationJobId := some j,
                     workflowExecutionId := some w } } (r :: rest)
          store).outcome = Outcome.err o ∧
        o.status = "Error" ∧
        ("ContentModerationError", "Unable to determine status") ∈
          o.metadata := by
  rw [lambda_handler_wf op s a j w hs]
  have hout :
      (pollLoop op j a w false { status := "", metadata := [] } store
          (r :: rest)).outcome =
        Outcome.err
          { status := "Error",
            metadata :=
              [("ContentModerationError",
                "Unable to determine status")] } := by
    simp [pollLoop, h1, h2, h3]
  exact ⟨by simp [pollLoop, h1, h2, h3], _, hout, rfl, by simp⟩

/-- Claim C7 witness: a concrete unrecognized status string yields the
generic Error and no writes. -/
theorem claim7_witness :
    (lambda_handler "op" sampleEvent
        [{ jobStatus := "BOGUS", nextToken := none, statusMessage := none }]
        storeAllSuccess).writes = [] ∧
    ∃ o,
      (lambda_handler "op" sampleEvent
          [{ jobStatus := "BOGUS", nextToken := none,
             statusMessage := none }] storeAllSuccess).outcome =
          Outcome.err o ∧
        o.status = "Error" ∧
        ("ContentModerationError", "Unable to determine status") ∈
          o.metadata :=
  claim7_unrecognized "op" "Queued" "asset1" "job1" "wf1"
    { jobStatus := "BOGUS", nextToken := none, statusMessage := none } []
    storeAllSuccess (by decide) (by decide) (by decide) (by decide)

/-- On any nonempty response script the pagination loop makes at least one
remote query. -/
theorem one_le_pollLoop_calls (op j a w : String) (p : Bool)
    (out : OutputObject) (store : Nat → StoreResult) (r : RekResponse)
    (rest : List RekResponse) :
    1 ≤ (pollLoop op j a w p out store (r :: rest)).remoteCalls := by
  simp only [pollLoop]
  repeat' split
  all_goals simp

/-- Claim C10 counterexample: an input with Status "Error" but a missing
ContentModerationJobId key raises the missing-key error without ever querying
the remote service, so a non-"Complete" status alone does not guarantee a
remote query. -/
theorem claim10_counterexample :
    (lambda_handler "op"
        { status := some "Error",
          metaData :=
            some { assetId := some "asset1",
                   contentModerationJobId := none,
                   workflowExecutionId := none } } [inProgressPage]
        storeAllSuccess).remoteCalls = 0 ∧
    (lambda_handler "op"
        { status := some "Error",
          metaData :=
            some { assetId := some "asset1",
                   contentModerationJobId := none,
                   workflowExecutionId := none } } [inProgressPage]
        storeAllSuccess).outcome.isErrorWithStatus "Error" = true := by
  decide

/-- Claim C10 (amended): for every input carrying all required keys whose
Status is any value other than "Complete", the adapter does not return
immediately but queries the remote service at least once. -/
theorem claim10_no_short_circuit (op s a j w : String) (r : RekResponse)
    (rest : List RekResponse) (store : Nat → StoreResult)
    (hs : s ≠ "Complete") :
    1 ≤ (lambda_handler op
        { status := some s,
          metaData :=
            some { assetId := some a, contentModerationJobId := some j,
                   workflowExecutionId := some w } } (r :: rest)
        store).remoteCalls := by
  rw [lambda_handler_wf op s a j w hs]
  exact one_le_pollLoop_calls op j a w false _ store r rest

/-- Claim C10 witness: a concrete event with Status "Error" and all keys
present makes a remote query. -/
theorem claim10_witness :
    1 ≤ (lambda_handler "op"
        { status := some "Error",
          metaData :=
            some { assetId := some "asset1",
                   contentModerationJobId := some "job1",
                   workflowExecutionId := some "wf1" } } [inProgressPage]
        storeAllSuccess).remoteCalls :=
  claim10_no_short_circuit "op" "Error" "asset1" "job1" "wf1" inProgressPage
    [] storeAllSuccess (by decide)

/-- Claim C3 counterexample: an input missing the required
ContentModerationJobId and WorkflowExecutionId keys but whose Status is
"Complete" returns success, not the claimed Error: the early return fires
before those keys are read. -/
theorem claim3_counterexample :
    missingRequiredKey
        { status := some "Complete",
          metaData :=
            some { assetId := some "asset1",
                   contentModerationJobId := none,
                   workflowExecutionId := none } } = true ∧
    (lambda_handler "op"
        { status := some "Complete",
          metaData :=
            some { assetId := some "asset1",
                   contentModerationJobId := none,
                   workflowExecutionId := none } } [] storeAllSuccess).outcome =
      Outcome.ret { status := "Complete", metadata := [] } := by
  decide

/-- Claim C3 (amended): for every input event missing a required key (the
top-level Status, or the MetaData keys AssetId, ContentModerationJobId or
WorkflowExecutionId), except those whose Status is "Complete" while MetaData
and AssetId are present (where the early Complete return fires first), the
adapter raises a failure object with status "Error" without contacting the
remote service and without any metadata-store write. -/
theorem claim3_missing_key (op : String) (e : Event)
    (responses : List RekResponse) (store : Nat → StoreResult)
    (hmiss : missingRequiredKey e = true)
    (hexc : ¬(e.status = some "Complete" ∧
      ∃ md, e.metaData = some md ∧ md.assetId.isSome = true)) :
    (lambda_handler op e responses store).outcome.isErrorWithStatus "Error" =
        true ∧
    (lambda_handler op e responses store).remoteCalls = 0 ∧
    (lambda_handler op e responses store).writes = [] := by
  obtain ⟨st, md⟩ := e
  match st, md with
  | none, _ =>
    simp [lambda_handler, Outcome.isErrorWithStatus]
  | some s, none =>
    simp [lambda_handler, Outcome.isErrorWithStatus]
  | some s, some ⟨none, jid, wid⟩ =>
    simp [lambda_handler, Outcome.isErrorWithStatus]
  | some s, some ⟨some a, jid, wid⟩ =>
    have hs : s ≠ "Complete" := by
      intro h
      exact hexc ⟨by rw [h], ⟨_, rfl, by simp⟩⟩
    match jid with
    | none =>
      simp [lambda_handler, hs, Outcome.isErrorWithStatus]
    | some j =>
      match wid with
      | none =>
        simp [lambda_handler, hs, Outcome.isErrorWithStatus]
      | some w =>
        simp [missingRequiredKey] at hmiss

/-- Claim C3 witness: a concrete event missing the top-level Status key
yields Error with no remote call and no write. -/
theorem claim3_witness :
    (lambda_handler "op" { status := none, metaData := none } []
        storeAllSuccess).outcome.isErrorWithStatus "Error" = true ∧
    (lambda_handler "op" { status := none, metaData := none } []
        storeAllSuccess).remoteCalls = 0 ∧
    (lambda_handler "op" { status := none, metaData := none } []
        storeAllSuccess).writes = [] :=
  claim3_missing_key "op" { status := none, metaData := none } []
    storeAllSuccess (by decide) (by simp)

/-- Running the pagination loop through a block of SUCCEEDED pages that all
carry a NextToken, with every corresponding store write succeeding, performs
one non-final write per page and continues on the remaining script with the
pagination flag set and the store shifted past the consumed results. -/
theorem pollLoop_success_pages (op j a w : String) (pages : List RekResponse) :
    ∀ (rest : List RekResponse) (isPag : Bool) (out : OutputObject)
      (store : Nat → StoreResult),
    (∀ r ∈ pages, r.jobStatus = "SUCCEEDED" ∧ r.nextToken.isSome = true) →
    (∀ i, i < pages.length → (store i).isSuccess = true) →
    pollLoop op j a w isPag out store (pages ++ rest) =
      { outcome :=
          (pollLoop op j a w (isPag || !pages.isEmpty) out
            (fun n => store (n + pages.length)) rest).outcome,
        remoteCalls :=
          pages.length +
            (pollLoop op j a w (isPag || !pages.isEmpty) out
              (fun n => store (n + pages.length)) rest).remoteCalls,
        writes :=
          pages.map (fun r =>
            { assetId := a, operatorName := op, workflowId := w, results := r,
              paginate := true, endFlag := false }) ++
            (pollLoop op j a w (isPag || !pages.isEmpty) out
              (fun n => store (n + pages.length)) rest).writes } := by
  induction pages with
  | nil =>
    intro rest isPag out store _ _
    simp
  | cons p ps ih =>
    intro rest isPag out store hp hs
    obtain ⟨hp1, hp2⟩ := hp p (List.mem_cons_self _ _)
    obtain ⟨tok, htok⟩ := Option.isSome_iff_exists.mp hp2
    have hs0 : (store 0).status = some "Success" := by
      have h := hs 0 (by simp)
      simpa [StoreResult.isSuccess] using h
    have hrec := ih rest true out (fun n => store (n + 1))
      (fun r hr => hp r (List.mem_cons_of_mem _ hr))
      (fun i hi => by
        have := hs (i + 1) (by simpa using Nat.succ_lt_succ hi)
        simpa using this)
    simp only [List.cons_append]
    simp [pollLoop, hp1, htok, hs0]
    rw [hrec]
    simp [Nat.add_assoc]
    omega

/-- Claim C1: for a SUCCEEDED job whose remote responses form N pages (the
first N-1 each carrying a NextToken, the last carrying none), with every
store write succeeding, the adapter performs exactly N metadata writes, the
first N-1 non-final (paginate set, end not set) and the Nth marked final, and
returns an output object with status "Complete"; this includes N = 1. -/
theorem claim1_pagination (op s a j w : String) (pages : List RekResponse)
    (plast : RekResponse) (store : Nat → StoreResult)
    (hs : s ≠ "Complete")
    (hp : ∀ r ∈ pages, r.jobStatus = "SUCCEEDED" ∧ r.nextToken.isSome = true)
    (hl1 : plast.jobStatus = "SUCCEEDED") (hl2 : plast.nextToken = none)
    (hst : ∀ i, i < pages.length + 1 → (store i).isSuccess = true) :
    (lambda_handler op
        { status := some s,
          metaData :=
            some { assetId := some a, contentModerationJobId := some j,
                   workflowExecutionId := some w } } (pages ++ [plast])
        store).writes.length = pages.length + 1 ∧
    (∃ ws wlast,
      (lambda_handler op
          { status := some s,
            metaData :=
              some { assetId := some a, contentModerationJobId := some j,
                     workflowExecutionId := some w } } (pages ++ [plast])
          store).writes = ws ++ [wlast] ∧
      ws.length = pages.length ∧
      (∀ x ∈ ws, x.paginate = true ∧ x.endFlag = false) ∧
      wlast.markedFinal = true) ∧
    (lambda_handler op
        { status := some s,
          metaData :=
            some { assetId := some a, contentModerationJobId := some j,
                   workflowExecutionId := some w } } (pages ++ [plast])
        store).outcome.isReturnWithStatus "Complete" = true := by
  rw [lambda_handler_wf op s a j w hs]
  rcases pages with _ | ⟨p0, ps⟩
  · have h0 : (store 0).status = some "Success" := by
      have h := hst 0 (by omega)
      simpa [StoreResult.isSuccess] using h
    refine ⟨by simp [pollLoop, hl1, hl2, h0],
      ⟨[], { assetId := a, operatorName := op, workflowId := w,
             results := plast, paginate := false, endFlag := false },
        by simp [pollLoop, hl1, hl2, h0], rfl, by simp,
        by simp [WriteCall.markedFinal]⟩,
      by simp [pollLoop, hl1, hl2, h0, Outcome.isReturnWithStatus]⟩
  · rw [pollLoop_success_pages op j a w (p0 :: ps) [plast] false
      { status := "", metadata := [] } store hp
      (fun i hi => hst i (by omega))]
    simp only [List.isEmpty_cons, Bool.not_false, Bool.or_true]
    have hl : (store (ps.length + 1)).status = some "Success" := by
      have h := hst (ps.length + 1) (by simp)
      simpa [StoreResult.isSuccess] using h
    have hfin : pollLoop op j a w true { status := "", metadata := [] }
        (fun n => store (n + (p0 :: ps).length)) [plast] =
      { outcome :=
          Outcome.ret
            { status := "Complete",
              metadata := [("LabelDetectionJobId", j)] },
        remoteCalls := 1,
        writes :=
          [{ assetId := a, operatorName := op, workflowId := w,
             results := plast, paginate := true, endFlag := true }] } := by
      simp [pollLoop, hl1, hl2, hl]
    rw [hfin]
    refine ⟨by simp,
      ⟨List.map (fun r =>
          { assetId := a, operatorName := op, workflowId := w, results := r,
            paginate := true, endFlag := false }) (p0 :: ps),
        { assetId := a, operatorName := op, workflowId := w,
          results := plast, paginate := true, endFlag := true },
        rfl, by simp, ?_, by simp [WriteCall.markedFinal]⟩,
      by simp [Outcome.isReturnWithStatus]⟩
    intro x hx
    simp only [List.mem_map] at hx
    obtain ⟨r, _, hr⟩ := hx
    exact ⟨by rw [← hr], by rw [← hr]⟩

/-- Claim C1 witness: the single-page (N = 1) instance with a SUCCEEDED
response carrying no NextToken and a succeeding store write. -/
theorem claim1_witness :
    (lambda_handler "op"
        { status := some "Queued",
          metaData :=
            some { assetId := some "asset1",
                   contentModerationJobId := some "job1",
                   workflowExecutionId := some "wf1" } } ([] ++ [finalPage])
        storeAllSuccess).writes.length =
      List.length ([] : List RekResponse) + 1 ∧
    (∃ ws wlast,
      (lambda_handler "op"
          { status := some "Queued",
            metaData :=
              some { assetId := some "asset1",
                     contentModerationJobId := some "job1",
                     workflowExecutionId := some "wf1" } } ([] ++ [finalPage])
          storeAllSuccess).writes = ws ++ [wlast] ∧
      ws.length = List.length ([] : List RekResponse) ∧
      (∀ x ∈ ws, x.paginate = true ∧ x.endFlag = false) ∧
      wlast.markedFinal = true) ∧
    (lambda_handler "op"
        { status := some "Queued",
          metaData :=
            some { assetId := some "asset1",
                   contentModerationJobId := some "job1",
                   workflowExecutionId := some "wf1" } } ([] ++ [finalPage])
        storeAllSuccess).outcome.isReturnWithStatus "Complete" = true :=
  claim1_pagination "op" "Queued" "asset1" "job1" "wf1" [] finalPage
    storeAllSuccess (by decide) (by simp) rfl rfl (fun i _ => rfl)

/-- If the pagination loop consumes a store result that is not a success, the
invocation raises a failure object whose status is "Error". -/
theorem pollLoop_bad_store (op j a w : String)
    (responses : List RekResponse) :
    ∀ (isPag : Bool) (out : OutputObject) (store : Nat → StoreResult),
    (∃ i, i < (pollLoop op j a w isPag out store responses).writes.length ∧
        (store i).isSuccess = false) →
    ∃ o, (pollLoop op j a w isPag out store responses).outcome =
        Outcome.err o ∧ o.status = "Error" := by
  induction responses with
  | nil =>
    rintro isPag out store ⟨i, hi, _⟩
    simp [pollLoop] at hi
  | cons r rest ih =>
    rintro isPag out store ⟨i, hi, hbad⟩
    by_cases h1 : r.jobStatus = "IN_PROGRESS"
    · simp [pollLoop, h1] at hi
    · by_cases h2 : r.jobStatus = "FAILED"
      · cases hm : r.statusMessage with
        | none => simp [pollLoop, h1, h2, hm] at hi
        | some msg => simp [pollLoop, h1, h2, hm] at hi
      · by_cases h3 : r.jobStatus = "SUCCEEDED"
        · cases htok : r.nextToken with
          | none =>
            cases hst : (store 0).status with
            | none =>
              refine ⟨{ status := "Error",
                        metadata :=
                          out.metadata ++
                            [("ContentModerationError",
                              "Unable to upload metadata for " ++ a)] },
                ?_, rfl⟩
              simp [pollLoop, h1, h2, h3, htok, hst]
            | some sres =>
              by_cases hss : sres = "Success"
              · subst hss
                simp [pollLoop, h1, h2, h3, htok, hst] at hi
                subst hi
                simp [StoreResult.isSuccess, hst] at hbad
              · by_cases hsf : sres = "Failed"
                · refine ⟨{ status := "Error",
                            metadata :=
                              out.metadata ++
                                [("ContentModerationError",
                                  "Unable to upload metadata for asset: " ++
                                    a)] },
                    ?_, rfl⟩
                  simp [pollLoop, h1, h2, h3, htok, hst, hss, hsf]
                · refine ⟨{ status := "Error",
                            metadata :=
                              out.metadata ++
                                [("ContentModerationError",
                                  "Unable to upload metadata for asset: " ++
                                    a),
                                 ("PersonTrackingJobId", j)] },
                    ?_, rfl⟩
                  simp [pollLoop, h1, h2, h3, htok, hst, hss, hsf]
          | some tok =>
            cases hst : (store 0).status with
            | none =>
              refine ⟨{ status := "Error",
                        metadata :=
                          out.metadata ++
                            [("ContentModerationError",
                              "Unable to upload metadata for asset: " ++ a),
                             ("ContentModerationJobId", j)] },
                ?_, rfl⟩
              simp [pollLoop, h1, h2, h3, htok, hst]
            | some sres =>
              by_cases hss : sres = "Success"
              · subst hss
                simp only [pollLoop, h1, h2, h3, htok, hst] at hi ⊢
                simp at hi ⊢
                rcases i with _ | i'
                · simp [StoreResult.isSuccess, hst] at hbad
                · exact ih true out (fun n => store (n + 1))
                    ⟨i', by omega, by simpa using hbad⟩
              · refine ⟨{ status := "Error",
                          metadata :=
                            out.metadata ++
                              [("ContentModerationError",
                                "Unable to upload metadata for asset: " ++ a),
                               ("ContentModerationJobId", j)] },
                  ?_, rfl⟩
                simp [pollLoop, h1, h2, h3, htok, hst, hss]
        · simp [pollLoop, h1, h2, h3] at hi

/-- Claim C6: whenever a metadata-store write consumed by the invocation
returns a mapping with no "Status" field or with a "Status" other than
"Success", the adapter raises a failure object with status "Error"; a partial
or failed persistence is never reported as success. -/
theorem claim6_bad_store (op : String) (event : Event)
    (responses : List RekResponse) (store : Nat → StoreResult)
    (h : ∃ i, i < (lambda_handler op event responses store).writes.length ∧
        (store i).isSuccess = false) :
    ∃ o, (lambda_handler op event responses store).outcome = Outcome.err o ∧
        o.status = "Error" := by
  obtain ⟨st, md⟩ := event
  match st, md with
  | none, _ =>
    obtain ⟨i, hi, _⟩ := h
    simp [lambda_handler] at hi
  | some s, none =>
    obtain ⟨i, hi, _⟩ := h
    simp [lambda_handler] at hi
  | some s, some ⟨none, jid, wid⟩ =>
    obtain ⟨i, hi, _⟩ := h
    simp [lambda_handler] at hi
  | some s, some ⟨some a, jid, wid⟩ =>
    by_cases hc : s = "Complete"
    · obtain ⟨i, hi, _⟩ := h
      simp [lambda_handler, hc] at hi
    · match jid with
      | none =>
        obtain ⟨i, hi, _⟩ := h
        simp [lambda_handler, hc] at hi
      | some j =>
        match wid with
        | none =>
          obtain ⟨i, hi, _⟩ := h
          simp [lambda_handler, hc] at hi
        | some w =>
          have heq : lambda_handler op
              { status := some s,
                metaData :=
                  some { assetId := some a, contentModerationJobId := some j,
                         workflowExecutionId := some w } } responses store =
              pollLoop op j a w false { status := "", metadata := [] } store
                responses := lambda_handler_wf op s a j w hc responses store
          rw [heq] at h ⊢
          exact pollLoop_bad_store op j a w responses false _ store h

/-- Claim C6 witness: a store returning a mapping with no "Status" field on
the single final-page write yields an Error outcome. -/
theorem claim6_witness :
    ∃ o, (lambda_handler "op" sampleEvent [finalPage]
        storeNoStatus).outcome = Outcome.err o ∧ o.status = "Error" :=
  claim6_bad_store "op" sampleEvent [finalPage] storeNoStatus
    ⟨0, by decide, by decide⟩

/-- The pagination loop never runs off the end of a response script that
contains a non-continuation page: it returns or raises no later than that
page. -/
theorem pollLoop_not_exhausted (op j a w : String)
    (pages : List RekResponse) :
    ∀ (terminal : RekResponse) (rest : List RekResponse) (isPag : Bool)
      (out : OutputObject) (store : Nat → StoreResult),
    (∀ r ∈ pages, r.succeededWithToken = true) →
    terminal.succeededWithToken = false →
    (pollLoop op j a w isPag out store
        (pages ++ terminal :: rest)).outcome ≠ Outcome.exhausted := by
  induction pages with
  | nil =>
    intro terminal rest isPag out store _ ht
    by_cases h1 : terminal.jobStatus = "IN_PROGRESS"
    · simp [pollLoop, h1]
    · by_cases h2 : terminal.jobStatus = "FAILED"
      · cases hm : terminal.statusMessage with
        | none => simp [pollLoop, h1, h2, hm]
        | some msg => simp [pollLoop, h1, h2, hm]
      · by_cases h3 : terminal.jobStatus = "SUCCEEDED"
        · cases htok : terminal.nextToken with
          | some tok =>
            exfalso
            simp [RekResponse.succeededWithToken, h3, htok] at ht
          | none =>
            cases hst : (store 0).status with
            | none => simp [pollLoop, h1, h2, h3, htok, hst]
            | some sres =>
              by_cases hss : sres = "Success"
              · simp [pollLoop, h1, h2, h3, htok, hst, hss]
              · by_cases hsf : sres = "Failed"
                · simp [pollLoop, h1, h2, h3, htok, hst, hss, hsf]
                · simp [pollLoop, h1, h2, h3, htok, hst, hss, hsf]
        · simp [pollLoop, h1, h2, h3]
  | cons p ps ih =>
    intro terminal rest isPag out store hp ht
    have hp0 := hp p (List.mem_cons_self _ _)
    rw [RekResponse.succeededWithToken, Bool.and_eq_true, beq_iff_eq] at hp0
    obtain ⟨tok, htok⟩ := Option.isSome_iff_exists.mp hp0.2
    cases hst : (store 0).status with
    | none => simp [pollLoop, hp0.1, htok, hst]
    | some sres =>
      by_cases hss : sres = "Success"
      · subst hss
        have hrec := ih terminal rest true out (fun n => store (n + 1))
          (fun r hr => hp r (List.mem_cons_of_mem _ hr)) ht
        simpa [pollLoop, hp0.1, htok, hst] using hrec
      · simp [pollLoop, hp0.1, htok, hst, hss]

/-- The pagination loop makes at most one remote query per page up to and
including the first non-continuation page. -/
theorem pollLoop_calls_le (op j a w : String) (pages : List RekResponse) :
    ∀ (terminal : RekResponse) (rest : List RekResponse) (isPag : Bool)
      (out : OutputObject) (store : Nat → StoreResult),
    (∀ r ∈ pages, r.succeededWithToken = true) →
    terminal.succeededWithToken = false →
    (pollLoop op j a w isPag out store
        (pages ++ terminal :: rest)).remoteCalls ≤ pages.length + 1 := by
  induction pages with
  | nil =>
    intro terminal rest isPag out store _ ht
    by_cases h1 : terminal.jobStatus = "IN_PROGRESS"
    · simp [pollLoop, h1]
    · by_cases h2 : terminal.jobStatus = "FAILED"
      · cases hm : terminal.statusMessage with
        | none => simp [pollLoop, h1, h2, hm]
        | some msg => simp [pollLoop, h1, h2, hm]
      · by_cases h3 : terminal.jobStatus = "SUCCEEDED"
        · cases htok : terminal.nextToken with
          | some tok =>
            exfalso
            simp [RekResponse.succeededWithToken, h3, htok] at ht
          | none =>
            cases hst : (store 0).status with
            | none => simp [pollLoop, h1, h2, h3, htok, hst]
            | some sres =>
              by_cases hss : sres = "Success"
              · simp [pollLoop, h1, h2, h3, htok, hst, hss]
              · by_cases hsf : sres = "Failed"
                · simp [pollLoop, h1, h2, h3, htok, hst, hss, hsf]
                · simp [pollLoop, h1, h2, h3, htok, hst, hss, hsf]
        · simp [pollLoop, h1, h2, h3]
  | cons p ps ih =>
    intro terminal rest isPag out store hp ht
    have hp0 := hp p (List.mem_cons_self _ _)
    rw [RekResponse.succeededWithToken, Bool.and_eq_true, beq_iff_eq] at hp0
    obtain ⟨tok, htok⟩ := Option.isSome_iff_exists.mp hp0.2
    cases hst : (store 0).status with
    | none => simp [pollLoop, hp0.1, htok, hst]
    | some sres =>
      by_cases hss : sres = "Success"
      · subst hss
        have hrec := ih terminal rest true out (fun n => store (n + 1))
          (fun r hr => hp r (List.mem_cons_of_mem _ hr)) ht
        simp [pollLoop, hp0.1, htok, hst]
        omega
      · simp [pollLoop, hp0.1, htok, hst, hss]

/-- Claim C9: the pagination loop is bounded by the remote page count. For
every input event and every response script made of finitely many
SUCCEEDED-with-NextToken pages followed by a page that is IN_PROGRESS,
FAILED, unrecognized, or SUCCEEDED without NextToken, the invocation returns
or raises (it never runs off the script) after at most one remote query per
page up to that terminal page. -/
theorem claim9_loop_bounded (op : String) (event : Event)
    (pages : List RekResponse) (terminal : RekResponse)
    (rest : List RekResponse) (store : Nat → StoreResult)
    (hp : ∀ r ∈ pages, r.succeededWithToken = true)
    (ht : terminal.succeededWithToken = false) :
    (lambda_handler op event (pages ++ terminal :: rest) store).outcome ≠
        Outcome.exhausted ∧
    (lambda_handler op event
        (pages ++ terminal :: rest) store).remoteCalls ≤ pages.length + 1 := by
  obtain ⟨st, md⟩ := event
  match st, md with
  | none, _ => simp [lambda_handler]
  | some s, none => simp [lambda_handler]
  | some s, some ⟨none, jid, wid⟩ => simp [lambda_handler]
  | some s, some ⟨some a, jid, wid⟩ =>
    by_cases hc : s = "Complete"
    · simp [lambda_handler, hc]
    · match jid with
      | none => simp [lambda_handler, hc]
      | some j =>
        match wid with
        | none => simp [lambda_handler, hc]
        | some w =>
          rw [lambda_handler_wf op s a j w hc]
          exact ⟨pollLoop_not_exhausted op j a w pages terminal rest false
              { status := "", metadata := [] } store hp ht,
            pollLoop_calls_le op j a w pages terminal rest false
              { status := "", metadata := [] } store hp ht⟩

/-- Claim C9 witness: one token page followed by an IN_PROGRESS page
terminates with at most two remote queries. -/
theorem claim9_witness :
    (lambda_handler "op" sampleEvent ([tokenPage] ++ inProgressPage :: [])
        storeAllSuccess).outcome ≠ Outcome.exhausted ∧
    (lambda_handler "op" sampleEvent ([tokenPage] ++ inProgressPage :: [])
        storeAllSuccess).remoteCalls ≤ List.length [tokenPage] + 1 :=
  claim9_loop_bounded "op" sampleEvent [tokenPage] inProgressPage []
    storeAllSuccess (by simp [RekResponse.succeededWithToken, tokenPage])
    (by decide)

/-- Claim C8: in the precomputed-metadata lookup operator, if the JSON
document fetched from the object store cannot be read, or decodes to a value
that is not a mapping, the operator raises a failure object with status
"Error" and performs no metadata-store write. -/
theorem claim8_lookup_bad_document (opName : String) (event : LookupEvent)
    (fetch : String → String → Except String Json)
    (store : Nat → StoreResult) (wfId aId : String) (mm : MediaMap)
    (media : MediaSource)
    (h1 : event.workflowExecutionId = some wfId)
    (h2 : event.assetId = some aId) (h3 : event.media = some mm)
    (h4 : selectMedia mm = some media)
    (h5 : (∃ e, fetch media.s3Bucket (metadataFilename event media.s3Key) =
            Except.error e) ∨
          (∃ jv, fetch media.s3Bucket (metadataFilename event media.s3Key) =
            Except.ok jv ∧ jv.isDict = false)) :
    (generic_data_lookup_handler opName event fetch store).writes = [] ∧
    ∃ o, (generic_data_lookup_handler opName event fetch store).outcome =
        Outcome.err o ∧ o.status = "Error" := by
  obtain ⟨wf, aid, med, fn⟩ := event
  simp only at h1 h2 h3
  subst h1 h2 h3
  rcases h5 with ⟨e, he⟩ | ⟨jv, hok, hdict⟩
  · refine ⟨by simp [generic_data_lookup_handler, h4, he], ?_⟩
    refine ⟨{ status := "Error",
              metadata :=
                [("GenericDataLookupError",
                  "Unable read datafile. " ++ e)] }, ?_, rfl⟩
    simp [generic_data_lookup_handler, h4, he]
  · refine ⟨by simp [generic_data_lookup_handler, h4, hok, hdict], ?_⟩
    refine ⟨{ status := "Error",
              metadata :=
                [("GenericDataLookupError",
                  "Metadata must be of type dict.")] }, ?_, rfl⟩
    simp [generic_data_lookup_handler, h4, hok, hdict]

/-- Claim C8 witness: a fetch that raises yields Error and no write. -/
theorem claim8_witness :
    (generic_data_lookup_handler "GenericDataLookup"
        { workflowExecutionId := some "wf1", assetId := some "asset1",
          media :=
            some { video := some { s3Bucket := "b", s3Key := "My Video.mp4" },
                   audio := none, image := none, text := none },
          filenameConfig := none }
        (fun _ _ => Except.error "boom") storeAllSuccess).writes = [] ∧
    ∃ o, (generic_data_lookup_handler "GenericDataLookup"
        { workflowExecutionId := some "wf1", assetId := some "asset1",
          media :=
            some { video := some { s3Bucket := "b", s3Key := "My Video.mp4" },
                   audio := none, image := none, text := none },
          filenameConfig := none }
        (fun _ _ => Except.error "boom") storeAllSuccess).outcome =
        Outcome.err o ∧ o.status = "Error" :=
  claim8_lookup_bad_document "GenericDataLookup"
    { workflowExecutionId := some "wf1", assetId := some "asset1",
      media :=
        some { video := some { s3Bucket := "b", s3Key := "My Video.mp4" },
               audio := none, image := none, text := none },
      filenameConfig := none }
    (fun _ _ => Except.error "boom") storeAllSuccess "wf1" "asset1"
    { video := some { s3Bucket := "b", s3Key := "My Video.mp4" },
      audio := none, image := none, text := none }
    { s3Bucket := "b", s3Key := "My Video.mp4" } rfl rfl rfl rfl
    (Or.inl ⟨"boom", rfl⟩)
